import Mathlib

/-!
Shallow embedding of the osu_zipifier acquisition pipeline
(src/lib.rs, src/beatmap_store.rs, src/osu_api.rs, src/routes.rs).

Beatmap (artifact) ids and difficulty (secondary) ids are `Nat` (the Rust
`u64` values are used only as opaque keys and filename stems, never with
overflowing arithmetic).  File bodies are `List Nat` byte blobs.  Filesystem
and network interactions are modelled by explicit oracles: each syscall of
the Rust code observes the then-current shared state, so every observation
is a separate parameter of the model.
-/

namespace OsuZipifier

/-- Model of the mirror enum `BeatmapEndpoint` in src/lib.rs (lines 54-59).
The `EnumIter` derive iterates the variants in declaration order:
Catboy, Chimu, Nerinyan. -/
inductive BeatmapEndpoint where
  | Catboy
  | Chimu
  | Nerinyan
deriving DecidableEq

/-- Model of `BeatmapEndpoint::get_download_url` (src/lib.rs lines 61-73). -/
def BeatmapEndpoint.get_download_url : BeatmapEndpoint → Nat → String
  | .Chimu, beatmap_id => "https://chimu.moe/d/" ++ toString beatmap_id
  | .Catboy, beatmap_id => "https://catboy.best/d/" ++ toString beatmap_id
  | .Nerinyan, beatmap_id => "https://proxy.nerinyan.moe/d/" ++ toString beatmap_id

/-- Declaration order of the `EnumIter` iterator over `BeatmapEndpoint`. -/
def endpointOrder : List BeatmapEndpoint := [.Catboy, .Chimu, .Nerinyan]

/-- Model of `BeatmapUrlProvider` (src/lib.rs lines 30-33): the beatmap id
plus the remaining suffix of the endpoint iterator. -/
structure BeatmapUrlProvider where
  beatmap_id : Nat
  endpoint : List BeatmapEndpoint

/-- Model of `BeatmapUrlProvider::new` (src/lib.rs lines 36-41). -/
def BeatmapUrlProvider.new (beatmap_id : Nat) : BeatmapUrlProvider :=
  ⟨beatmap_id, endpointOrder⟩

/-- Model of `BeatmapUrlProvider::get_next_url` (src/lib.rs lines 43-49).
The Rust method mutates `self`; the model returns the result together with
the successor state.  Exhaustion yields the `context` message of the
`Option::None` case. -/
def BeatmapUrlProvider.get_next_url :
    BeatmapUrlProvider → Except String String × BeatmapUrlProvider
  | ⟨beatmap_id, []⟩ => (.error "Out of backup endpoints", ⟨beatmap_id, []⟩)
  | ⟨beatmap_id, e :: rest⟩ =>
      (.ok (e.get_download_url beatmap_id), ⟨beatmap_id, rest⟩)

/-- Repeated calls of `get_next_url`: the list of the first `n` results. -/
def nextUrls : BeatmapUrlProvider → Nat → List (Except String String)
  | _, 0 => []
  | p, n + 1 =>
      let r := p.get_next_url
      r.1 :: nextUrls r.2 n

/-- One mirror attempt as observed by `download_map`: the `send()` future
either fails at the network level, or yields a response with a status
(`is_success`) and a body whose conversion to bytes may itself fail
(`response.bytes().await`, src/beatmap_store.rs lines 70-75). -/
inductive MirrorResp where
  | netErr
  | resp (statusSuccess : Bool) (body : Option (List Nat))

/-- Filesystem observations made by one pass of `download_map`'s commit
section (src/beatmap_store.rs lines 77-108).  Each field is the outcome of
one syscall at the moment it runs; a concurrent writer may change the file
between the `exists` check and the exclusive `create_new`. -/
structure FsObs where
  existsAtCheck : Bool
  existsAtCreate : Bool
  copyOk : Bool
  removeOk : Bool

/-- Net effect of one `download_map` call on the artifact file it targets. -/
inductive Effect where
  | noWrite
  | wroteComplete (body : List Nat)
  | createdThenDeleted
  | partialLeft
deriving DecidableEq

/-- Whether the effect leaves a file (complete or partial) behind that this
task created. -/
def Effect.leavesFile : Effect → Bool
  | .wroteComplete _ => true
  | .partialLeft => true
  | _ => false

/-- Model of the commit section of `download_map`
(src/beatmap_store.rs lines 77-108): the `file_path.exists()` pre-check,
then inside `spawn_blocking` the `OpenOptions::create_new(true)` exclusive
create, the `io::copy` write, and on write failure the `remove_file`
cleanup.  Error strings are the `context` messages of the source. -/
def commit_to_store (body : List Nat) (obs : FsObs) : Except String Unit × Effect :=
  if obs.existsAtCheck then
    (.ok (), .noWrite)
  else if obs.existsAtCreate then
    (.error "Unable to create map file.", .noWrite)
  else if obs.copyOk then
    (.ok (), .wroteComplete body)
  else if obs.removeOk then
    (.error "Unable to write map data to file.", .createdThenDeleted)
  else
    (.error "Unable to delete the empty file.", .partialLeft)

/-- Model of the mirror loop of `download_map` (src/beatmap_store.rs lines
46-111), recursing on the remaining endpoint iterator of the url provider.
`rs i` is the observed outcome of the HTTP GET of attempt `i`.  A network
error or a non-success status advances to the next mirror; a body-conversion
failure aborts with its error; a successful body enters the commit section,
which always ends the loop. -/
def downloadLoop (obs : FsObs) (rs : Nat → MirrorResp) :
    List BeatmapEndpoint → Nat → Except String Unit × Effect
  | [], _ => (.error "Out of backup endpoints", .noWrite)
  | _ :: rest, i =>
      match rs i with
      | .netErr => downloadLoop obs rs rest (i + 1)
      | .resp false _ => downloadLoop obs rs rest (i + 1)
      | .resp true none => (.error "Unable to convert body to bytes.", .noWrite)
      | .resp true (some body) => commit_to_store body obs

/-- Model of `download_map` (src/beatmap_store.rs lines 43-114): drive the
mirror loop over a fresh `BeatmapUrlProvider` for the id. -/
def download_map (beatmap_id : Nat) (rs : Nat → MirrorResp) (obs : FsObs) :
    Except String Unit × Effect :=
  downloadLoop obs rs (BeatmapUrlProvider.new beatmap_id).endpoint 0

/-- Minimal model of a `serde_json::Value` payload: enough structure to
distinguish an object, a numeric field, and every malformed shape the
resolver can meet. -/
inductive JsonVal where
  | null
  | num (n : Nat)
  | str (s : String)
  | arr (xs : List JsonVal)
  | obj (fields : List (String × JsonVal))

/-- Model of `serde_json::Map::get` restricted to the field lists of
`JsonVal.obj`. -/
def lookupField : List (String × JsonVal) → String → Option JsonVal
  | [], _ => none
  | (k, v) :: rest, key => if k = key then some v else lookupField rest key

/-- One remote identity lookup as observed by the resolver: the `send()`
future either fails, or yields a response with an HTTP status code and a
payload whose JSON parse (`response.json::<serde_json::Value>()`) may
itself fail. -/
inductive RemoteResp where
  | netErr (msg : String)
  | resp (status : Nat) (payload : Except String JsonVal)

/-- Outcome of a computation that, like the Rust resolver, can return a
value, return an error, or panic (the `expect` calls of src/osu_api.rs
lines 89-97 abort the task instead of returning an `Err`). -/
inductive ROutcome (α : Type) where
  | ok (a : α)
  | err (msg : String)
  | panicked (msg : String)
deriving DecidableEq

/-- Whether an outcome is the error-return form (`Err`), as opposed to a
success or a panic. -/
def ROutcome.isErr {α : Type} : ROutcome α → Bool
  | .err _ => true
  | _ => false

/-- Model of the body of one cache-miss future in
`get_beatmap_id_from_diff_ids` (src/osu_api.rs lines 77-113), up to the
database write: the authenticated GET, the `!= StatusCode::OK` bail, the
JSON parse (`?`, an error return), and the three `expect` calls (panics)
on a malformed payload. -/
def resolve_one (remote : Nat → RemoteResp) (diff_id : Nat) : ROutcome Nat :=
  match remote diff_id with
  | .netErr m => .err m
  | .resp status payload =>
      if status ≠ 200 then .err "Failed to fetch beatmap ID from difficulty ID."
      else
        match payload with
        | .error m => .err m
        | .ok j =>
            match j with
            | .obj fields =>
                match lookupField fields "beatmapset_id" with
                | none =>
                    .panicked "Successful beatmap request should have \"beatmapset_id\" field."
                | some (.num n) => .ok n
                | some _ => .panicked "\"beatmapset_id\" must be a Number"
            | _ => .panicked "Converting successful beatmap response should not fail."

/-- Model of `Vec::dedup` (remove consecutive equal elements), as called on
the sorted id list in src/osu_api.rs line 129 and src/routes.rs line 51. -/
def dedup_adjacent : List Nat → List Nat
  | [] => []
  | [a] => [a]
  | a :: b :: rest =>
      if a = b then dedup_adjacent (b :: rest) else a :: dedup_adjacent (b :: rest)

/-- Model of the `sort` / `sort_unstable` followed by `dedup` normalization
(src/osu_api.rs lines 128-129, src/routes.rs lines 50-51).  On `Nat` every
sort produces the same list, so the unstable Rust sort is modelled by
`List.insertionSort`. -/
def sort_dedup (l : List Nat) : List Nat :=
  dedup_adjacent (List.insertionSort (· ≤ ·) l)

/-- Partition loop of `get_beatmap_ids_from_db` (src/osu_api.rs lines
136-155): walk the normalized id list, pushing cache hits' values to the
first component and unknown ids to the second. -/
def db_partition (cache : Nat → Option Nat) : List Nat → List Nat × List Nat
  | [] => ([], [])
  | d :: rest =>
      let p := db_partition cache rest
      match cache d with
      | some b => (b :: p.1, p.2)
      | none => (p.1, d :: p.2)

/-- Model of `get_beatmap_ids_from_db` (src/osu_api.rs lines 121-163):
sort + dedup the input, then partition through the `ResolutionCache`
(`db.get_key`).  Returns (resolved beatmap ids, unknown difficulty ids). -/
def get_beatmap_ids_from_db (difficulty_ids : List Nat) (cache : Nat → Option Nat) :
    List Nat × List Nat :=
  db_partition cache (sort_dedup difficulty_ids)

/-- State returned by the resolver model: the outcome, the cache after all
completed `db.set_key` writes, and the number of remote HTTP lookups
issued. -/
structure ResolveState where
  outcome : ROutcome (List Nat)
  cache : Nat → Option Nat
  calls : Nat

/-- Model of `try_join_all` over the cache-miss futures of
`get_beatmap_id_from_diff_ids` (src/osu_api.rs lines 75-116), in miss-list
order: each miss issues one remote lookup; on success its mapping is
written to the cache (`db.set_key`, keyed by the difficulty id) before the
value is produced; the first failure or panic aborts the whole join,
keeping the cache writes already made. -/
def resolve_misses (remote : Nat → RemoteResp) :
    List Nat → (Nat → Option Nat) → ResolveState
  | [], cache => ⟨.ok [], cache, 0⟩
  | d :: rest, cache =>
      match resolve_one remote d with
      | .ok b =>
          let cache' := fun k => if k = d then some b else cache k
          let s := resolve_misses remote rest cache'
          match s.outcome with
          | .ok bs => ⟨.ok (b :: bs), s.cache, s.calls + 1⟩
          | .err m => ⟨.err m, s.cache, s.calls + 1⟩
          | .panicked m => ⟨.panicked m, s.cache, s.calls + 1⟩
      | .err m => ⟨.err m, cache, 1⟩
      | .panicked m => ⟨.panicked m, cache, 1⟩

/-- Model of `get_beatmap_id_from_diff_ids` (src/osu_api.rs lines 63-119):
bail on an empty input, split the normalized ids through the cache, resolve
every miss remotely, and on full success return the cache hits followed by
the freshly resolved values (`beatmap_ids.append(&mut future_result)`). -/
def get_beatmap_id_from_diff_ids (difficulty_ids : List Nat)
    (cache : Nat → Option Nat) (remote : Nat → RemoteResp) : ResolveState :=
  if difficulty_ids.isEmpty then
    ⟨.err "Difficulty Id list is empty.", cache, 0⟩
  else
    let p := get_beatmap_ids_from_db difficulty_ids cache
    let s := resolve_misses remote p.2 cache
    match s.outcome with
    | .ok fresh => ⟨.ok (p.1 ++ fresh), s.cache, s.calls⟩
    | .err m => ⟨.err m, s.cache, s.calls⟩
    | .panicked m => ⟨.panicked m, s.cache, s.calls⟩

/-- One filesystem operation issued by the store's existence machinery. -/
inductive FsOp where
  | readDir
  | statFile (name : String)
deriving DecidableEq

/-- Model of `find_non_downloaded_maps` (src/beatmap_store.rs lines 20-41).
The whole map directory is read once (`fs::read_dir`); `dir` is that single
listing, `.error` when the read fails, otherwise the file names whose
directory entries were readable UTF-8 (`filter_map`).  An id is missing
when `id.to_string() + ".osz"` is not among the listed names.  The second
component is the trace of filesystem operations issued: always the one
directory read, never a per-id stat. -/
def find_non_downloaded_maps (beatmap_ids : List Nat)
    (dir : Except String (List String)) : Except String (List Nat) × List FsOp :=
  match dir with
  | .error _ => (.error "Error while reading map directory.", [.readDir])
  | .ok names =>
      (.ok (beatmap_ids.filter fun beatmap_id =>
        !names.contains (toString beatmap_id ++ ".osz")), [.readDir])

/-- Compression method of one archive entry, as passed to
`zip::write::FileOptions::compression_method`. -/
inductive CompressionMethod where
  | Stored
  | Deflated
deriving DecidableEq

/-- One entry of the produced archive: its name, its compression method and
its content bytes. -/
structure ZipEntry where
  name : String
  method : CompressionMethod
  data : List Nat
deriving DecidableEq

/-- Model of `zip_beatmaps` (src/beatmap_store.rs lines 116-136): iterate
the ids in the order given, appending one entry per id named
`id.to_string() + ".osz"` with `Stored` (uncompressed) method and the bytes
read from the store (`fs::read`); a missing file fails the whole pack.
`store` maps an id to the content of its artifact file, `none` when
absent.  The archive is modelled as its entry list. -/
def zip_beatmaps (beatmap_ids : List Nat) (store : Nat → Option (List Nat)) :
    Except String (List ZipEntry) :=
  match beatmap_ids with
  | [] => .ok []
  | beatmap_id :: rest =>
      match store beatmap_id with
      | none => .error ("No such file: " ++ toString beatmap_id ++ ".osz")
      | some bytes =>
          match zip_beatmaps rest store with
          | .ok entries =>
              .ok (⟨toString beatmap_id ++ ".osz", .Stored, bytes⟩ :: entries)
          | .error m => .error m

/-- Model of `IdType` (src/routes.rs lines 25-28). -/
inductive IdType where
  | Beatmap
  | Difficulty
deriving DecidableEq

/-- Model of `id_type_from_string` (src/routes.rs lines 30-40): the
deserializer maps "beatmap" and "difficulty" to their variants and every
other tag to `Beatmap`. -/
def id_type_from_string (s : String) : IdType :=
  match s with
  | "beatmap" => IdType.Beatmap
  | "difficulty" => IdType.Difficulty
  | _ => IdType.Beatmap

/-- Model of the `try_join_all` over `download_map` futures in `serve_maps`
(src/routes.rs lines 55-63), one oracle pair per id: the join fails with
the first failing download's error. -/
def downloadAll (mirror : Nat → Nat → MirrorResp) (obs : Nat → FsObs) :
    List Nat → Except String Unit
  | [] => .ok ()
  | beatmap_id :: rest =>
      match (download_map beatmap_id (mirror beatmap_id) (obs beatmap_id)).1 with
      | .error m => .error m
      | .ok () => downloadAll mirror obs rest

/-- Tail of `serve_maps` after list normalization (src/routes.rs lines
53-67): compute the missing subset of `map_list` from one directory
listing, download every missing id, and pack the full `map_list`.  `store`
is the artifact store as read at zip time. -/
def serve_tail (map_list : List Nat) (dir : Except String (List String))
    (mirror : Nat → Nat → MirrorResp) (obs : Nat → FsObs)
    (store : Nat → Option (List Nat)) : ROutcome (List ZipEntry) :=
  match (find_non_downloaded_maps map_list dir).1 with
  | .error m => .err m
  | .ok absent =>
      match downloadAll mirror obs absent with
      | .error m => .err m
      | .ok () =>
          match zip_beatmaps map_list store with
          | .error m => .err m
          | .ok entries => .ok entries

/-- Model of `serve_maps` (src/routes.rs lines 42-68): dispatch on the
declared id type (difficulty ids go through the resolver), sort + dedup the
resulting list (`sort_unstable` then `dedup`), then run the tail pipeline
on the normalized list. -/
def serve_maps (maps : List Nat) (id_type : String)
    (cache : Nat → Option Nat) (remote : Nat → RemoteResp)
    (dir : Except String (List String))
    (mirror : Nat → Nat → MirrorResp) (obs : Nat → FsObs)
    (store : Nat → Option (List Nat)) : ROutcome (List ZipEntry) :=
  let resolved : ROutcome (List Nat) :=
    match id_type_from_string id_type with
    | .Beatmap => .ok maps
    | .Difficulty => (get_beatmap_id_from_diff_ids maps cache remote).outcome
  match resolved with
  | .err m => .err m
  | .panicked m => .panicked m
  | .ok l => serve_tail (sort_dedup l) dir mirror obs store

/-- C3: for every ArtifactId the mirror sequencer produces exactly the three
configured candidate URLs, one per call and in the fixed declaration order,
then signals exhaustion with the distinct "Out of backup endpoints" error;
the three candidates are pairwise distinct, and the whole sequence is a
function of the id alone, hence stable across repeated constructions. -/
theorem C3_mirror_sequencer_exhaustive (beatmap_id : Nat) :
    nextUrls (BeatmapUrlProvider.new beatmap_id) 4 =
      [.ok ("https://catboy.best/d/" ++ toString beatmap_id),
       .ok ("https://chimu.moe/d/" ++ toString beatmap_id),
       .ok ("https://proxy.nerinyan.moe/d/" ++ toString beatmap_id),
       .error "Out of backup endpoints"] ∧
    ("https://catboy.best/d/" ++ toString beatmap_id) ≠
      ("https://chimu.moe/d/" ++ toString beatmap_id) ∧
    ("https://catboy.best/d/" ++ toString beatmap_id) ≠
      ("https://proxy.nerinyan.moe/d/" ++ toString beatmap_id) ∧
    ("https://chimu.moe/d/" ++ toString beatmap_id) ≠
      ("https://proxy.nerinyan.moe/d/" ++ toString beatmap_id) := by
  refine ⟨rfl, ?_, ?_, ?_⟩ <;>
    · intro h
      have h2 := congrArg String.length h
      simp [String.length_append] at h2
      exact absurd h2 (by decide)

/-- C1 counterexample: when the exclusive create itself fails because the
file already exists (the pre-write existence check had still seen it
absent), `download_map` returns the "Unable to create map file." error —
it does not return success, so the race loss at the exclusive create IS
surfaced as an error. -/
theorem C1_counterexample :
    (download_map 42 (fun _ => .resp true (some [1, 2, 3]))
        ⟨false, true, true, true⟩).1 = .error "Unable to create map file." ∧
    (download_map 42 (fun _ => .resp true (some [1, 2, 3]))
        ⟨false, true, true, true⟩).1 ≠ .ok () := by
  constructor
  · rfl
  · intro h
    exact Except.noConfusion h

/-- C1 amended: the race loss that is treated as success is the one observed
by the pre-write `file_path.exists()` check — then `download_map` returns
success without writing, discarding its downloaded bytes.  If instead the
exclusive `create_new` fails because the file appeared after that check,
the error is returned, not success.  The third conjunct ties the commit
section to `download_map` when the first mirror succeeds. -/
theorem C1_amended_race_loss (beatmap_id : Nat) (body : List Nat) (obs : FsObs)
    (rs : Nat → MirrorResp) :
    (obs.existsAtCheck = true → commit_to_store body obs = (.ok (), .noWrite)) ∧
    (obs.existsAtCheck = false → obs.existsAtCreate = true →
      commit_to_store body obs = (.error "Unable to create map file.", .noWrite)) ∧
    (rs 0 = .resp true (some body) →
      download_map beatmap_id rs obs = commit_to_store body obs) := by
  refine ⟨fun h1 => ?_, fun h1 h2 => ?_, fun hr => ?_⟩
  · simp [commit_to_store, h1]
  · simp [commit_to_store, h1, h2]
  · simp [download_map, downloadLoop, BeatmapUrlProvider.new, endpointOrder, hr]

/-- C1 witness: concrete observations discharging each hypothesis of the
amended theorem. -/
theorem C1_witness :
    commit_to_store [7] ⟨true, false, true, true⟩ = (.ok (), .noWrite) ∧
    commit_to_store [7] ⟨false, true, true, true⟩ =
      (.error "Unable to create map file.", .noWrite) ∧
    download_map 42 (fun _ => .resp true (some [7])) ⟨false, true, true, true⟩ =
      commit_to_store [7] ⟨false, true, true, true⟩ :=
  ⟨(C1_amended_race_loss 42 [7] ⟨true, false, true, true⟩
      (fun _ => .resp true (some [7]))).1 rfl,
   (C1_amended_race_loss 42 [7] ⟨false, true, true, true⟩
      (fun _ => .resp true (some [7]))).2.1 rfl rfl,
   (C1_amended_race_loss 42 [7] ⟨false, true, true, true⟩
      (fun _ => .resp true (some [7]))).2.2 rfl⟩

/-- C2: if the write step fails after a successful exclusive create (and the
filesystem performs the requested deletion), the partially written file is
removed before the write error is returned: `download_map` yields the
"Unable to write map data to file." error and its net effect on the store
is created-then-deleted, leaving no file behind. -/
theorem C2_partial_write_rollback (beatmap_id : Nat) (body : List Nat) (obs : FsObs)
    (rs : Nat → MirrorResp)
    (hchk : obs.existsAtCheck = false) (hcr : obs.existsAtCreate = false)
    (hcopy : obs.copyOk = false) (hrm : obs.removeOk = true)
    (hresp : rs 0 = .resp true (some body)) :
    (download_map beatmap_id rs obs).1 = .error "Unable to write map data to file." ∧
    (download_map beatmap_id rs obs).2 = .createdThenDeleted ∧
    (download_map beatmap_id rs obs).2.leavesFile = false := by
  have hd : download_map beatmap_id rs obs =
      (.error "Unable to write map data to file.", .createdThenDeleted) := by
    simp [download_map, downloadLoop, BeatmapUrlProvider.new, endpointOrder, hresp,
      commit_to_store, hchk, hcr, hcopy, hrm]
  refine ⟨by rw [hd], by rw [hd], by rw [hd]; rfl⟩

/-- C2 witness: a concrete failing write with a successful cleanup. -/
theorem C2_witness :
    (download_map 5 (fun _ => .resp true (some [9]))
        ⟨false, false, false, true⟩).1 = .error "Unable to write map data to file." ∧
    (download_map 5 (fun _ => .resp true (some [9]))
        ⟨false, false, false, true⟩).2 = .createdThenDeleted ∧
    (download_map 5 (fun _ => .resp true (some [9]))
        ⟨false, false, false, true⟩).2.leavesFile = false :=
  C2_partial_write_rollback 5 [9] ⟨false, false, false, true⟩
    (fun _ => .resp true (some [9])) rfl rfl rfl rfl rfl

/-- Panic message the resolver's expects produce on a given success-status
payload, `none` when the payload is well formed (an object with a numeric
"beatmapset_id" field). -/
def malformed_msg : JsonVal → Option String
  | .obj fields =>
      match lookupField fields "beatmapset_id" with
      | none => some "Successful beatmap request should have \"beatmapset_id\" field."
      | some (.num _) => none
      | some _ => some "\"beatmapset_id\" must be a Number"
  | _ => some "Converting successful beatmap response should not fail."

/-- Resolving a list of misses on which every single lookup succeeds yields
exactly the list of resolved values, with one remote call per miss. -/
theorem resolve_misses_all_ok (remote : Nat → RemoteResp) (f : Nat → Nat) :
    ∀ (misses : List Nat) (cache : Nat → Option Nat),
      (∀ d ∈ misses, resolve_one remote d = .ok (f d)) →
      (resolve_misses remote misses cache).outcome = .ok (misses.map f) ∧
      (resolve_misses remote misses cache).calls = misses.length := by
  intro misses
  induction misses with
  | nil => intro cache _; exact ⟨rfl, rfl⟩
  | cons d rest ih =>
      intro cache hall
      have hd : resolve_one remote d = .ok (f d) := hall d (by simp)
      have hrest := ih (fun k => if k = d then some (f d) else cache k)
        (fun x hx => hall x (by simp [hx]))
      simp only [resolve_misses, hd]
      rw [hrest.1]
      simp [hrest.2]

/-- If some miss's lookup does not succeed, the joined resolution never
returns an `ok` outcome (no partial result). -/
theorem resolve_misses_not_ok (remote : Nat → RemoteResp) (d : Nat)
    (hfail : ∀ b, resolve_one remote d ≠ .ok b) :
    ∀ (misses : List Nat) (cache : Nat → Option Nat), d ∈ misses →
      ∀ out, (resolve_misses remote misses cache).outcome ≠ .ok out := by
  intro misses
  induction misses with
  | nil => intro cache h; cases h
  | cons x rest ih =>
      intro cache hmem out
      rcases List.mem_cons.mp hmem with hx | hrest
      · subst hx
        cases hro : resolve_one remote d with
        | ok b => exact absurd hro (hfail b)
        | err m => simp [resolve_misses, hro]
        | panicked m => simp [resolve_misses, hro]
      · cases hro : resolve_one remote x with
        | ok b =>
            simp only [resolve_misses, hro]
            cases hs : (resolve_misses remote rest
                (fun k => if k = x then some b else cache k)).outcome with
            | ok bs => exact absurd hs (ih _ hrest bs)
            | err m => simp
            | panicked m => simp
        | err m => simp [resolve_misses, hro]
        | panicked m => simp [resolve_misses, hro]

/-- A remote lookup that errors at the network level or returns a
non-success status makes `resolve_one` an error return. -/
theorem resolve_one_err_of_remote_failure (remote : Nat → RemoteResp) (d : Nat)
    (h : (∃ m, remote d = .netErr m) ∨
         (∃ s p, remote d = .resp s p ∧ s ≠ 200)) :
    ∃ m, resolve_one remote d = .err m := by
  rcases h with ⟨m, hm⟩ | ⟨s, p, hp, hs⟩
  · exact ⟨m, by simp [resolve_one, hm]⟩
  · exact ⟨"Failed to fetch beatmap ID from difficulty ID.",
      by simp [resolve_one, hp, hs]⟩

/-- On full success the resolver returns the cache hits followed by the
freshly resolved miss values. -/
theorem resolver_output_shape (ids : List Nat) (cache : Nat → Option Nat)
    (remote : Nat → RemoteResp) (f : Nat → Nat) (hne : ids ≠ [])
    (hok : ∀ d ∈ (get_beatmap_ids_from_db ids cache).2,
      resolve_one remote d = .ok (f d)) :
    (get_beatmap_id_from_diff_ids ids cache remote).outcome =
      .ok ((get_beatmap_ids_from_db ids cache).1 ++
           (get_beatmap_ids_from_db ids cache).2.map f) := by
  have hmiss := resolve_misses_all_ok remote f
    (get_beatmap_ids_from_db ids cache).2 cache hok
  simp only [get_beatmap_id_from_diff_ids, List.isEmpty_eq_true, hne, if_false]
  rw [hmiss.1]

/-- C4: the resolver fails with the empty-input error on an empty list,
returns the cache hits followed by the freshly resolved misses on full
success, and never returns an `ok` outcome (no partial result) when any
single miss's remote lookup errors or returns a non-success status. -/
theorem C4_resolver_atomicity :
    (∀ (cache : Nat → Option Nat) (remote : Nat → RemoteResp),
      (get_beatmap_id_from_diff_ids [] cache remote).outcome =
        .err "Difficulty Id list is empty.") ∧
    (∀ (ids : List Nat) (cache : Nat → Option Nat) (remote : Nat → RemoteResp)
        (f : Nat → Nat), ids ≠ [] →
      (∀ d ∈ (get_beatmap_ids_from_db ids cache).2,
        resolve_one remote d = .ok (f d)) →
      (get_beatmap_id_from_diff_ids ids cache remote).outcome =
        .ok ((get_beatmap_ids_from_db ids cache).1 ++
             (get_beatmap_ids_from_db ids cache).2.map f)) ∧
    (∀ (ids : List Nat) (cache : Nat → Option Nat) (remote : Nat → RemoteResp)
        (d : Nat), d ∈ (get_beatmap_ids_from_db ids cache).2 →
      ((∃ m, remote d = .netErr m) ∨ (∃ s p, remote d = .resp s p ∧ s ≠ 200)) →
      ∀ out, (get_beatmap_id_from_diff_ids ids cache remote).outcome ≠ .ok out) := by
  refine ⟨fun cache remote => rfl, resolver_output_shape, ?_⟩
  intro ids cache remote d hmem hfail out
  obtain ⟨m, hm⟩ := resolve_one_err_of_remote_failure remote d hfail
  have hnotok : ∀ b, resolve_one remote d ≠ .ok b := by
    intro b hb; rw [hm] at hb; exact ROutcome.noConfusion hb
  have hne : ids ≠ [] := by
    intro he
    subst he
    simp [get_beatmap_ids_from_db, sort_dedup, dedup_adjacent, db_partition,
      List.insertionSort] at hmem
  have hmm := resolve_misses_not_ok remote d hnotok
    (get_beatmap_ids_from_db ids cache).2 cache hmem
  simp only [get_beatmap_id_from_diff_ids, List.isEmpty_eq_true, hne, if_false]
  cases hs : (resolve_misses remote (get_beatmap_ids_from_db ids cache).2
      cache).outcome with
  | ok bs => exact absurd hs (hmm bs)
  | err m2 => simp
  | panicked m2 => simp

/-- C4 witness: concrete empty-input, full-success and failing-lookup
instances discharging the hypotheses of the atomicity theorem. -/
theorem C4_witness :
    (get_beatmap_id_from_diff_ids [] (fun _ => none) (fun _ => .netErr "boom")).outcome =
      .err "Difficulty Id list is empty." ∧
    (get_beatmap_id_from_diff_ids [3] (fun _ => none)
        (fun _ => .resp 200 (.ok (.obj [("beatmapset_id", .num 9)])))).outcome =
      .ok ((get_beatmap_ids_from_db [3] (fun _ => none)).1 ++
           (get_beatmap_ids_from_db [3] (fun _ => none)).2.map (fun _ => 9)) ∧
    (get_beatmap_id_from_diff_ids [3] (fun _ => none)
        (fun _ => .netErr "down")).outcome ≠ .ok [9] := by
  refine ⟨C4_resolver_atomicity.1 _ _,
    C4_resolver_atomicity.2.1 [3] _ _ (fun _ => 9) (by simp) ?_,
    C4_resolver_atomicity.2.2 [3] _ _ 3 ?_ (Or.inl ⟨"down", rfl⟩) [9]⟩
  · intro d hd
    have he : (get_beatmap_ids_from_db [3] (fun _ => none)).2 = [3] := rfl
    rw [he] at hd
    have hd3 : d = 3 := by simpa using hd
    subst hd3
    rfl
  · show 3 ∈ (get_beatmap_ids_from_db [3] (fun _ => none)).2
    have he : (get_beatmap_ids_from_db [3] (fun _ => none)).2 = [3] := rfl
    rw [he]
    simp

/-- C5 counterexample: a cache-miss whose remote lookup returns a success
status with an object payload lacking the "beatmapset_id" field makes the
resolver panic (the `expect` aborts) instead of returning an error. -/
theorem C5_counterexample :
    (get_beatmap_id_from_diff_ids [5] (fun _ => none)
        (fun _ => .resp 200 (.ok (.obj [])))).outcome =
      .panicked "Successful beatmap request should have \"beatmapset_id\" field." ∧
    ((get_beatmap_id_from_diff_ids [5] (fun _ => none)
        (fun _ => .resp 200 (.ok (.obj [])))).outcome).isErr = false :=
  ⟨rfl, rfl⟩

/-- C5 amended: for every cache-miss SecondaryId whose remote lookup returns
a success status but whose payload lacks the expected fields (not a JSON
object, no "beatmapset_id" field, or a non-numeric value), the resolver
panics with the corresponding `expect` message rather than returning an
error; only a body that fails JSON parsing yields an error return. -/
theorem C5_amended_malformed_panics (d : Nat) (cache : Nat → Option Nat)
    (remote : Nat → RemoteResp) (j : JsonVal) (m : String)
    (hc : cache d = none) (hr : remote d = .resp 200 (.ok j))
    (hm : malformed_msg j = some m) :
    (get_beatmap_id_from_diff_ids [d] cache remote).outcome = .panicked m := by
  have h1 : resolve_one remote d = .panicked m := by
    cases j with
    | obj fields =>
        simp only [malformed_msg] at hm
        simp only [resolve_one, hr, ne_eq]
        cases hl : lookupField fields "beatmapset_id" with
        | none =>
            rw [hl] at hm
            simp only at hm
            simp [Option.some_inj.mp hm]
        | some v =>
            rw [hl] at hm
            cases v with
            | num n => simp at hm
            | null => simp only at hm; simp [Option.some_inj.mp hm]
            | str s => simp only at hm; simp [Option.some_inj.mp hm]
            | arr xs => simp only at hm; simp [Option.some_inj.mp hm]
            | obj fs => simp only at hm; simp [Option.some_inj.mp hm]
    | null =>
        simp only [malformed_msg] at hm
        simp [resolve_one, hr, Option.some_inj.mp hm]
    | num n =>
        simp only [malformed_msg] at hm
        simp [resolve_one, hr, Option.some_inj.mp hm]
    | str s =>
        simp only [malformed_msg] at hm
        simp [resolve_one, hr, Option.some_inj.mp hm]
    | arr xs =>
        simp only [malformed_msg] at hm
        simp [resolve_one, hr, Option.some_inj.mp hm]
  simp [get_beatmap_id_from_diff_ids, get_beatmap_ids_from_db, sort_dedup,
    List.insertionSort, List.orderedInsert, dedup_adjacent, db_partition, hc,
    resolve_misses, h1]

/-- C5 witness: a concrete non-object success payload making the resolver
panic with the object-conversion message. -/
theorem C5_witness :
    (get_beatmap_id_from_diff_ids [8] (fun _ => none)
        (fun _ => .resp 200 (.ok (.arr [])))).outcome =
      .panicked "Converting successful beatmap response should not fail." :=
  C5_amended_malformed_panics 8 (fun _ => none)
    (fun _ => .resp 200 (.ok (.arr []))) (.arr [])
    "Converting successful beatmap response should not fail." rfl rfl rfl

/-- C7: when resolving a SecondaryId succeeds, the mapping has been written
to the cache before the call returns, so resolving the same id again with
the returned (warm) cache yields the same ArtifactId list, leaves the cache
unchanged, and issues zero remote lookups. -/
theorem C7_resolution_idempotent (d : Nat) (cache : Nat → Option Nat)
    (remote : Nat → RemoteResp) (out : List Nat)
    (h : (get_beatmap_id_from_diff_ids [d] cache remote).outcome = .ok out) :
    get_beatmap_id_from_diff_ids [d]
        (get_beatmap_id_from_diff_ids [d] cache remote).cache remote =
      ⟨.ok out, (get_beatmap_id_from_diff_ids [d] cache remote).cache, 0⟩ := by
  have hsd : sort_dedup [d] = [d] := rfl
  cases hc : cache d with
  | some b =>
      have hp : get_beatmap_ids_from_db [d] cache = ([b], []) := by
        simp [get_beatmap_ids_from_db, hsd, db_partition, hc]
      have hr1 : get_beatmap_id_from_diff_ids [d] cache remote = ⟨.ok [b], cache, 0⟩ := by
        simp [get_beatmap_id_from_diff_ids, hp, resolve_misses]
      rw [hr1] at h ⊢
      have hout : out = [b] := by
        have := ROutcome.ok.inj h
        exact this.symm
      subst hout
      exact hr1
  | none =>
      have hp : get_beatmap_ids_from_db [d] cache = ([], [d]) := by
        simp [get_beatmap_ids_from_db, hsd, db_partition, hc]
      cases hro : resolve_one remote d with
      | ok b =>
          have hrm : resolve_misses remote [d] cache =
              ⟨.ok [b], fun k => if k = d then some b else cache k, 1⟩ := by
            simp [resolve_misses, hro]
          have hr1 : get_beatmap_id_from_diff_ids [d] cache remote =
              ⟨.ok [b], fun k => if k = d then some b else cache k, 1⟩ := by
            simp [get_beatmap_id_from_diff_ids, hp, hrm]
          rw [hr1] at h ⊢
          have hout : out = [b] := (ROutcome.ok.inj h).symm
          subst hout
          have hp2 : get_beatmap_ids_from_db [d]
              (fun k => if k = d then some b else cache k) = ([b], []) := by
            simp [get_beatmap_ids_from_db, hsd, db_partition]
          simp [get_beatmap_id_from_diff_ids, hp2, resolve_misses]
      | err m =>
          have hr1 : (get_beatmap_id_from_diff_ids [d] cache remote).outcome = .err m := by
            simp [get_beatmap_id_from_diff_ids, hp, resolve_misses, hro]
          rw [hr1] at h
          exact absurd h (by simp)
      | panicked m =>
          have hr1 : (get_beatmap_id_from_diff_ids [d] cache remote).outcome =
              .panicked m := by
            simp [get_beatmap_id_from_diff_ids, hp, resolve_misses, hro]
          rw [hr1] at h
          exact absurd h (by simp)

/-- C7 witness: a concrete first resolution (one remote lookup) followed by
the warm second resolution with zero lookups. -/
theorem C7_witness :
    get_beatmap_id_from_diff_ids [7]
        (get_beatmap_id_from_diff_ids [7] (fun _ => none)
          (fun _ => .resp 200 (.ok (.obj [("beatmapset_id", .num 42)])))).cache
        (fun _ => .resp 200 (.ok (.obj [("beatmapset_id", .num 42)]))) =
      ⟨.ok [42],
       (get_beatmap_id_from_diff_ids [7] (fun _ => none)
          (fun _ => .resp 200 (.ok (.obj [("beatmapset_id", .num 42)])))).cache,
       0⟩ :=
  C7_resolution_idempotent 7 (fun _ => none)
    (fun _ => .resp 200 (.ok (.obj [("beatmapset_id", .num 42)]))) [42] rfl

/-- C6: packing an id list over a store holding every id produces exactly
one `Stored` (uncompressed) entry per id, in the order given, each named
`id.to_string() + ".osz"` with content byte-identical to the stored
artifact — so the archive for two ids unpacks to exactly those two
entries. -/
theorem C6_archive_entries (beatmap_ids : List Nat) (store : Nat → Option (List Nat))
    (content : Nat → List Nat)
    (h : ∀ beatmap_id ∈ beatmap_ids, store beatmap_id = some (content beatmap_id)) :
    zip_beatmaps beatmap_ids store =
      .ok (beatmap_ids.map fun beatmap_id =>
        ⟨toString beatmap_id ++ ".osz", .Stored, content beatmap_id⟩) := by
  induction beatmap_ids with
  | nil => rfl
  | cons a rest ih =>
      have ha := h a (by simp)
      have hr := ih (fun x hx => h x (by simp [hx]))
      simp [zip_beatmaps, ha, hr]

/-- C6 witness: the archive for ids 111 and 222 holds exactly the two
entries "111.osz" and "222.osz" with the stored bytes, uncompressed. -/
theorem C6_witness :
    zip_beatmaps [111, 222] (fun n => some [n]) =
      .ok ([111, 222].map fun beatmap_id =>
        ⟨toString beatmap_id ++ ".osz", .Stored, [beatmap_id]⟩) :=
  C6_archive_entries [111, 222] (fun n => some [n]) (fun n => [n])
    (fun _ _ => rfl)

/-- C8: on a successful directory read the missing-subset computation
returns exactly the input ids whose `id.to_string() + ".osz"` file is not
among the listed names, and for every input (and even for a failed read)
it issues exactly one directory listing and no per-id filesystem query. -/
theorem C8_missing_subset (beatmap_ids : List Nat) (names : List String) :
    ((find_non_downloaded_maps beatmap_ids (.ok names)).1 =
      .ok (beatmap_ids.filter fun beatmap_id =>
        !names.contains (toString beatmap_id ++ ".osz"))) ∧
    (∀ beatmap_id,
      beatmap_id ∈ beatmap_ids.filter (fun beatmap_id =>
        !names.contains (toString beatmap_id ++ ".osz")) ↔
      beatmap_id ∈ beatmap_ids ∧ ¬ (toString beatmap_id ++ ".osz") ∈ names) ∧
    (∀ dir : Except String (List String),
      (find_non_downloaded_maps beatmap_ids dir).2 = [.readDir]) := by
  refine ⟨rfl, ?_, ?_⟩
  · intro beatmap_id
    simp [List.mem_filter]
  · intro dir
    cases dir <;> rfl

/-- C9: every identifier-type tag other than "beatmap" and "difficulty"
deserializes to `Beatmap`, and the whole request is served exactly as if
the tag were "beatmap". -/
theorem C9_unknown_tag_defaults (s : String) (maps : List Nat)
    (cache : Nat → Option Nat) (remote : Nat → RemoteResp)
    (dir : Except String (List String)) (mirror : Nat → Nat → MirrorResp)
    (obs : Nat → FsObs) (store : Nat → Option (List Nat))
    (hb : s ≠ "beatmap") (hd : s ≠ "difficulty") :
    id_type_from_string s = .Beatmap ∧
    serve_maps maps s cache remote dir mirror obs store =
      serve_maps maps "beatmap" cache remote dir mirror obs store := by
  have ht : id_type_from_string s = .Beatmap := by
    unfold id_type_from_string
    split
    · rfl
    · exact absurd rfl hd
    · rfl
  refine ⟨ht, ?_⟩
  have hb2 : id_type_from_string "beatmap" = .Beatmap := rfl
  simp only [serve_maps, ht, hb2]

/-- C9 witness: the concrete unknown tag "mapset" is served as "beatmap". -/
theorem C9_witness :
    id_type_from_string "mapset" = .Beatmap ∧
    serve_maps [1] "mapset" (fun _ => none) (fun _ => .netErr "x")
        (.ok ["1.osz"]) (fun _ _ => .netErr) (fun _ => ⟨false, false, true, true⟩)
        (fun _ => some []) =
      serve_maps [1] "beatmap" (fun _ => none) (fun _ => .netErr "x")
        (.ok ["1.osz"]) (fun _ _ => .netErr) (fun _ => ⟨false, false, true, true⟩)
        (fun _ => some []) :=
  C9_unknown_tag_defaults "mapset" [1] (fun _ => none) (fun _ => .netErr "x")
    (.ok ["1.osz"]) (fun _ _ => .netErr) (fun _ => ⟨false, false, true, true⟩)
    (fun _ => some []) (by decide) (by decide)

/-- Removing adjacent duplicates keeps the head of a nonempty list. -/
theorem dedup_adjacent_cons_head (x : Nat) (r : List Nat) :
    ∃ t, dedup_adjacent (x :: r) = x :: t := by
  induction r generalizing x with
  | nil => exact ⟨[], rfl⟩
  | cons b rest ih =>
      by_cases h : x = b
      · subst h
        obtain ⟨t, ht⟩ := ih x
        exact ⟨t, by simpa [dedup_adjacent] using ht⟩
      · exact ⟨dedup_adjacent (b :: rest), by simp [dedup_adjacent, h]⟩

/-- Removing adjacent duplicates from a weakly increasing list yields a
strictly increasing list. -/
theorem chain'_lt_dedup_adjacent :
    ∀ l : List Nat, l.Chain' (· ≤ ·) → (dedup_adjacent l).Chain' (· < ·) := by
  intro l
  induction l with
  | nil => intro _; simp [dedup_adjacent]
  | cons a rest ih =>
      intro hch
      cases rest with
      | nil => simp [dedup_adjacent]
      | cons b r2 =>
          have hab : a ≤ b := (List.chain'_cons.mp hch).1
          have htail : (b :: r2).Chain' (· ≤ ·) := (List.chain'_cons.mp hch).2
          by_cases h : a = b
          · rw [show dedup_adjacent (a :: b :: r2) = dedup_adjacent (b :: r2) from
              by simp [dedup_adjacent, h]]
            exact ih htail
          · rw [show dedup_adjacent (a :: b :: r2) = a :: dedup_adjacent (b :: r2) from
              by simp [dedup_adjacent, h]]
            obtain ⟨t, ht⟩ := dedup_adjacent_cons_head b r2
            rw [ht]
            refine List.chain'_cons.mpr ⟨lt_of_le_of_ne hab h, ?_⟩
            have hr := ih htail
            rwa [ht] at hr

/-- The sort + dedup normalization produces a strictly increasing list. -/
theorem sort_dedup_chain_lt (l : List Nat) : (sort_dedup l).Chain' (· < ·) := by
  apply chain'_lt_dedup_adjacent
  exact List.chain'_iff_pairwise.mpr (List.sorted_insertionSort _ l)

/-- The partition through the cache returns the hit values and the miss
keys, each in the order of the walked list. -/
theorem db_partition_filter (cache : Nat → Option Nat) :
    ∀ l : List Nat,
      db_partition cache l =
        (l.filterMap cache, l.filter fun d => (cache d).isNone) := by
  intro l
  induction l with
  | nil => rfl
  | cons d rest ih =>
      cases hc : cache d with
      | some b => simp [db_partition, ih, hc, List.filterMap_cons, List.filter_cons]
      | none => simp [db_partition, ih, hc, List.filterMap_cons, List.filter_cons]

/-- C10: the resolver's successful output is the cache hits — the hit
values along the sorted, deduplicated input-key order — followed by the
freshly resolved miss values; that output itself is neither deduplicated
(two SecondaryIds sharing an ArtifactId yield a duplicate) nor sorted; and
the orchestrator normalizes (sorts strictly, hence sorts and deduplicates)
every resolved list before handing it to the missing-subset computation. -/
theorem C10_output_order_and_normalization :
    (∀ (ids : List Nat) (cache : Nat → Option Nat) (remote : Nat → RemoteResp)
        (f : Nat → Nat), ids ≠ [] →
      (∀ d ∈ (get_beatmap_ids_from_db ids cache).2,
        resolve_one remote d = .ok (f d)) →
      (get_beatmap_id_from_diff_ids ids cache remote).outcome =
        .ok ((sort_dedup ids).filterMap cache ++
             ((sort_dedup ids).filter fun d => (cache d).isNone).map f)) ∧
    ((get_beatmap_id_from_diff_ids [1, 2]
        (fun k => if k = 1 then some 5 else if k = 2 then some 5 else none)
        (fun _ => .netErr "unused")).outcome = .ok [5, 5] ∧
      ¬ ([5, 5] : List Nat).Nodup) ∧
    ((get_beatmap_id_from_diff_ids [1, 2]
        (fun k => if k = 1 then some 9 else if k = 2 then some 3 else none)
        (fun _ => .netErr "unused")).outcome = .ok [9, 3] ∧
      ¬ ([9, 3] : List Nat).Sorted (· ≤ ·)) ∧
    (∀ l : List Nat, (sort_dedup l).Sorted (· ≤ ·) ∧ (sort_dedup l).Nodup) ∧
    (∀ (maps : List Nat) (l : List Nat) (cache : Nat → Option Nat)
        (remote : Nat → RemoteResp) (dir : Except String (List String))
        (mirror : Nat → Nat → MirrorResp) (obs : Nat → FsObs)
        (store : Nat → Option (List Nat)),
      (get_beatmap_id_from_diff_ids maps cache remote).outcome = .ok l →
      serve_maps maps "difficulty" cache remote dir mirror obs store =
        serve_tail (sort_dedup l) dir mirror obs store) := by
  refine ⟨?_, ⟨rfl, by decide⟩, ⟨rfl, by decide⟩, ?_, ?_⟩
  · intro ids cache remote f hne hok
    have hshape := resolver_output_shape ids cache remote f hne hok
    rw [hshape]
    rw [show get_beatmap_ids_from_db ids cache =
        ((sort_dedup ids).filterMap cache,
         (sort_dedup ids).filter fun d => (cache d).isNone) from
      db_partition_filter cache (sort_dedup ids)]
  · intro l
    have h := List.chain'_iff_pairwise.mp (sort_dedup_chain_lt l)
    exact ⟨List.Pairwise.imp le_of_lt h, List.Pairwise.imp ne_of_lt h⟩
  · intro maps l cache remote dir mirror obs store hok
    simp only [serve_maps, id_type_from_string, hok]

/-- C10 witness: a concrete successful resolution with one hit and one
miss, and a concrete difficulty-tag request, discharging the hypotheses. -/
theorem C10_witness :
    (get_beatmap_id_from_diff_ids [4] (fun _ => none)
        (fun _ => .resp 200 (.ok (.obj [("beatmapset_id", .num 6)])))).outcome =
      .ok ((sort_dedup [4]).filterMap (fun _ => none) ++
           ((sort_dedup [4]).filter fun d =>
             ((fun _ => (none : Option Nat)) d).isNone).map (fun _ => 6)) ∧
    serve_maps [4] "difficulty" (fun _ => none)
        (fun _ => .resp 200 (.ok (.obj [("beatmapset_id", .num 6)])))
        (.ok ["6.osz"]) (fun _ _ => .netErr) (fun _ => ⟨true, true, true, true⟩)
        (fun _ => some [1]) =
      serve_tail (sort_dedup [6]) (.ok ["6.osz"]) (fun _ _ => .netErr)
        (fun _ => ⟨true, true, true, true⟩) (fun _ => some [1]) := by
  constructor
  · apply C10_output_order_and_normalization.1 [4] (fun _ => none)
      (fun _ => .resp 200 (.ok (.obj [("beatmapset_id", .num 6)]))) (fun _ => 6)
      (by simp)
    intro d hd
    have he : (get_beatmap_ids_from_db [4] (fun _ => none)).2 = [4] := rfl
    rw [he] at hd
    have hd4 : d = 4 := by simpa using hd
    subst hd4
    rfl
  · exact C10_output_order_and_normalization.2.2.2.2 [4] [6] (fun _ => none)
      (fun _ => .resp 200 (.ok (.obj [("beatmapset_id", .num 6)])))
      (.ok ["6.osz"]) (fun _ _ => .netErr) (fun _ => ⟨true, true, true, true⟩)
      (fun _ => some [1]) rfl

end OsuZipifier
